import Mathlib

/-!
# Websocket connection of stream-chat-go: model and properties

Shallow embedding of `src/websocket.go`.  Stateful code is written as explicit
state passing over `WebsocketConn`; every value that the Go code obtains from
the outside world (dial results, frames on the wire, results of deadline
calls, cancellation by the caller, scheduling of `select`) is an explicit
input of the corresponding function.
-/

namespace StreamChat

/-! ## Data model -/

/-- Go `error` values that occur in the connection code.  A Go value of type
`error` is an `Option GoError`, with `none` for `nil`. -/
inductive GoError where
  /-- The value `context.Canceled`, returned by `ctx.Err()` after cancellation. -/
  | canceled
  /-- An i/o timeout: an armed deadline expired. -/
  | timeout
  /-- Any other transport failure (dial, read, write, close frame). -/
  | net (msg : String)
  /-- A failure of `json.Decoder.Decode`. -/
  | decode (msg : String)
  /-- The value of `fmt.Errorf("failed to reconnect:%v ")`. -/
  | reconnect
  deriving DecidableEq, Repr

/-- A Go run-time panic. -/
inductive GoPanic where
  /-- The failed type assertion `nil.(string)`: interface conversion on a nil interface. -/
  | nilInterfaceConversion
  /-- A method call on the nil embedded `net.Conn`: nil pointer dereference. -/
  | nilPointerDereference
  deriving DecidableEq, Repr

/-- Modelled from the spec: the `Event` record is declared outside `src/`.
It carries the discriminant `Type`, the `ConnectionID`, and the remaining
attributes, which the connection code passes through untouched. -/
structure Event where
  type : String
  ConnectionID : String
  payload : String
  deriving DecidableEq, Repr

/-- Modelled from the spec: the constant `EventHealthCheck` is declared outside
`src/`; the wire value of the reserved discriminant is `health.check`. -/
def EventHealthCheck : String := "health.check"

/-- A `context.Context` created by `context.WithCancel(context.Background())`:
an allocation handle and whether its cancel function has been called. -/
structure Ctx where
  handle : Nat
  cancelled : Bool
  deriving DecidableEq, Repr

/-- The method `ctx.Err()`: `context.Canceled` once cancelled, `nil` before. -/
def Ctx.Err (c : Ctx) : Option GoError :=
  if c.cancelled then some GoError.canceled else none

/-- A `net.Conn`: the handle given by the dialer and whether `Close` was called. -/
structure NetConn where
  handle : Nat
  closed : Bool
  deriving DecidableEq, Repr

/-- The struct `WebsocketConn`.  `id` is the `atomic.Value` (`none` while nothing
has been stored).  The handler is an external callback; its invocations are
recorded, in order, in `handled`.  `ctxSeq` is the allocation counter from which
`context.WithCancel` draws fresh handles. -/
structure WebsocketConn where
  id : Option String
  handled : List Event
  url : String
  Context : Ctx
  Conn : Option NetConn
  err : Option GoError
  maxReconnectAttempts : Int
  started : Nat
  ctxSeq : Nat
  deriving DecidableEq, Repr

/-- The constructor `NewWebsocketConn`: a fresh context, no connection, nothing stored
in `id`.  The handler argument is not a field of the model: its calls are recorded in `handled`. -/
def NewWebsocketConn (url : String) (maxReconnectAttempts : Int) : WebsocketConn :=
  { id := none
    handled := []
    url := url
    Context := { handle := 0, cancelled := false }
    Conn := none
    err := none
    maxReconnectAttempts := maxReconnectAttempts
    started := 0
    ctxSeq := 1 }

/-- The caller invokes `wsConn.CancelFunc`, cancelling the current context. -/
def WebsocketConn.cancel (w : WebsocketConn) : WebsocketConn :=
  { w with Context := { w.Context with cancelled := true } }

/-- The assignment `wsConn.Context, wsConn.CancelFunc = context.WithCancel(context.Background())`. -/
def WebsocketConn.withFreshContext (w : WebsocketConn) : WebsocketConn :=
  { w with Context := { handle := w.ctxSeq, cancelled := false }, ctxSeq := w.ctxSeq + 1 }

/-- The call `wsConn.Close()` on the embedded `net.Conn`.  While `Conn` is `nil`
(as `NewWebsocketConn` leaves it) the call panics. -/
def WebsocketConn.Close (w : WebsocketConn) : Except GoPanic WebsocketConn :=
  match w.Conn with
  | none => Except.error GoPanic.nilPointerDereference
  | some c => Except.ok { w with Conn := some { c with closed := true } }

/-- The connection state once a `run` started on it has returned: the deferred
`Close` of that `run` has been executed.  A `run` on a connection that was never
dialed panics instead of returning, so the second case does not arise from a
`run` that has returned. -/
def WebsocketConn.afterRun (w : WebsocketConn) : WebsocketConn :=
  match w.Close with
  | Except.ok w2 => w2
  | Except.error _ => w

/-! ## Frame reading: `readEvent` -/

/-- The websocket opcode of text frames, `ws.OpText`. -/
def OpText : Nat := 0x1

/-- The method `OpCode.IsControl` of the websocket library: bit 3 is set. -/
def IsControl (op : Nat) : Bool := op &&& 0x8 != 0

/-- Calls that the connection code makes on the network connection, in program order. -/
inductive NetCall where
  | SetReadDeadline (t : Nat)
  | NextFrame
  | controlHandler (op : Nat)
  | Discard
  | ReadFrom
  | SetWriteDeadline (t : Nat)
  | WriteClientBinary (data : String)
  | Sleep (seconds : Nat)
  deriving DecidableEq, Repr

/-- What one call of `rd.NextFrame()` finds on the wire. -/
inductive WireStep where
  /-- The call `NextFrame` fails with the given error. -/
  | nextFrameErr (e : GoError)
  /-- The call `NextFrame` returns a header with opcode `op`.  `payload` is the text
  that `buffer.ReadFrom` drains when the frame is a text frame, and `herr` is the
  result of the one call applied to this frame (`controlHandler`, `rd.Discard`
  or `buffer.ReadFrom`). -/
  | frame (op : Nat) (payload : String) (herr : Option GoError)
  deriving DecidableEq, Repr

/-- The outside world as seen by one call of `readEvent`: the clock reading
`time.Now()` in seconds, the result of `SetReadDeadline`, and the frames that
arrive.  When the frames run out the peer is silent and the next `NextFrame`
fails with a timeout, because a deadline is armed. -/
structure ReadEnv where
  now : Nat
  deadlineErr : Option GoError
  wire : List WireStep
  deriving DecidableEq, Repr

/-- The result of `readEvent`: the returned error, the content of the buffer
afterwards, and the network calls made. -/
structure ReadResult where
  err : Option GoError
  buffer : String
  calls : List NetCall
  deriving DecidableEq, Repr

/-- Record one more network call in front of a result. -/
def ReadResult.after (c : List NetCall) (r : ReadResult) : ReadResult :=
  { r with calls := c ++ r.calls }

/-- The `for` loop of `readEvent` (lines 169-188). -/
def readFrames : List WireStep → String → ReadResult
  | [], buffer => ⟨some GoError.timeout, buffer, [NetCall.NextFrame]⟩
  | WireStep.nextFrameErr e :: _, buffer => ⟨some e, buffer, [NetCall.NextFrame]⟩
  | WireStep.frame op payload herr :: rest, buffer =>
    if IsControl op then
      match herr with
      | some e => ⟨some e, buffer, [NetCall.NextFrame, NetCall.controlHandler op]⟩
      | none => (readFrames rest buffer).after [NetCall.NextFrame, NetCall.controlHandler op]
    else if op &&& OpText = 0 then
      match herr with
      | some e => ⟨some e, buffer, [NetCall.NextFrame, NetCall.Discard]⟩
      | none => (readFrames rest buffer).after [NetCall.NextFrame, NetCall.Discard]
    else
      ⟨herr, buffer ++ payload, [NetCall.NextFrame, NetCall.ReadFrom]⟩

/-- The method `readEvent` (lines 155-189). -/
def readEvent (env : ReadEnv) (buffer : String) : ReadResult :=
  match env.deadlineErr with
  | some e => ⟨some e, buffer, [NetCall.SetReadDeadline (env.now + 35)]⟩
  | none => (readFrames env.wire buffer).after [NetCall.SetReadDeadline (env.now + 35)]

/-! ## Handshake and identity: `Connect`, `ID` -/

/-- The outside world as seen by one call of `Connect`: the result of
`ws.DefaultDialer.Dial` (a new connection handle or an error) and the
environment of the one `readEvent` that follows. -/
structure ConnectEnv where
  dial : Except GoError Nat
  read : ReadEnv

/-- The method `Connect` (lines 50-68).  `decode` stands for `json.NewDecoder(&buf).Decode`. -/
def Connect (decode : String → Except GoError Event) (env : ConnectEnv) (w : WebsocketConn) :
    Option GoError × WebsocketConn :=
  match env.dial with
  | Except.error e => (some e, w)
  | Except.ok c =>
    let w := { w with Conn := some { handle := c, closed := false } }
    let r := readEvent env.read ""
    match r.err with
    | some e => (some e, w)
    | none =>
      match decode r.buffer with
      | Except.error e => (some e, w)
      | Except.ok event => (none, { w with id := some event.ConnectionID })

/-- The method `ID` (lines 105-107): `wsConn.id.Load().(string)`. -/
def ID (w : WebsocketConn) : Except GoPanic String :=
  match w.id with
  | none => Except.error GoPanic.nilInterfaceConversion
  | some s => Except.ok s

/-! ## The read loop -/

/-- The outside world as seen by one iteration of `readLoop`: whether the caller
cancels the session context before the iteration checks it, and the environment
of the call of `readEvent` made by the iteration. -/
structure IterEnv where
  cancel : Bool
  read : ReadEnv
  deriving DecidableEq, Repr

/-- How far a loop has come when its scripted input is used up. -/
inductive LoopResult where
  /-- The loop has consumed the script and is still looping. -/
  | running
  /-- The loop has returned the given `error`. -/
  | returned (err : Option GoError)
  /-- The goroutine has panicked. -/
  | panicked (p : GoPanic)
  deriving DecidableEq, Repr

/-- The method `readLoop` (lines 109-133), run against a script of iterations.
The call `log.Println(err)` on a decoding failure is not recorded. -/
def readLoop (decode : String → Except GoError Event) :
    List IterEnv → WebsocketConn → LoopResult × WebsocketConn
  | [], w => (LoopResult.running, w)
  | it :: rest, w =>
    let w := if it.cancel then w.cancel else w
    if w.Context.cancelled then
      (LoopResult.returned w.Context.Err, w)
    else
      let r := readEvent it.read ""
      match r.err with
      | some e => (LoopResult.returned (some e), w)
      | none =>
        match decode r.buffer with
        | Except.error e => (LoopResult.returned (some e), w)
        | Except.ok event =>
          if event.type = EventHealthCheck then
            readLoop decode rest { w with id := some event.ConnectionID }
          else
            readLoop decode rest { w with handled := w.handled ++ [event] }

/-! ## The keepalive loop and `run` -/

/-- The payload of the keepalive probe, `var ping = []byte("ping")`. -/
def ping : String := "ping"

/-- The outside world as seen by one iteration of `writePingLoop`: whether the
caller cancels the session context before the check, the clock reading, and the
results of `SetWriteDeadline` and of `wsutil.WriteClientBinary`. -/
structure PingEnv where
  cancel : Bool
  now : Nat
  deadlineErr : Option GoError
  writeErr : Option GoError
  deriving DecidableEq, Repr

/-- The method `writePingLoop` (lines 137-153), run against a script of iterations.
It returns how the loop ended and the network calls it made. -/
def writePingLoop : List PingEnv → WebsocketConn → LoopResult × List NetCall
  | [], _ => (LoopResult.running, [])
  | it :: rest, w =>
    let w := if it.cancel then w.cancel else w
    if w.Context.cancelled then
      (LoopResult.returned w.Context.Err, [])
    else
      match it.deadlineErr with
      | some e => (LoopResult.returned (some e), [NetCall.SetWriteDeadline (it.now + 8)])
      | none =>
        match it.writeErr with
        | some e =>
          (LoopResult.returned (some e),
            [NetCall.SetWriteDeadline (it.now + 8), NetCall.WriteClientBinary ping])
        | none =>
          let r := writePingLoop rest w
          (r.1, [NetCall.SetWriteDeadline (it.now + 8), NetCall.WriteClientBinary ping,
                  NetCall.Sleep 28] ++ r.2)

/-- The method `run` (lines 99-103).  The keepalive loop is started with a `go`
statement, so the value it returns is dropped; `run` returns what `readLoop`
returns, and the deferred `Close` runs when it does.  While `Conn` is `nil` every
path panics: the first deadline call of either loop, or else the deferred `Close`. -/
def run (decode : String → Except GoError Event) (pings : List PingEnv) (reads : List IterEnv)
    (w : WebsocketConn) : LoopResult × WebsocketConn :=
  match w.Conn with
  | none => (LoopResult.panicked GoPanic.nilPointerDereference, w)
  | some _ =>
    let _keepalive := writePingLoop pings w
    let r := readLoop decode reads w
    match r.1 with
    | LoopResult.running => (LoopResult.running, r.2)
    | LoopResult.panicked p => (LoopResult.panicked p, r.2)
    | LoopResult.returned e =>
      match r.2.Close with
      | Except.ok w2 => (LoopResult.returned e, w2)
      | Except.error p => (LoopResult.panicked p, r.2)

/-! ## The supervisor: `monitorHealth` -/

/-- The case of the `select` statement in `monitorHealth` that is executed. -/
inductive SelectCase where
  | errCh
  | done
  | dflt
  deriving DecidableEq, Repr

/-- Go `select` with a `default` case: among the ready communication cases one
is chosen (here by `pickErr` when both are ready); `default` runs only when no
communication case is ready. -/
def selectCase (errReady doneReady pickErr : Bool) : SelectCase :=
  if errReady && doneReady then
    (if pickErr then SelectCase.errCh else SelectCase.done)
  else if errReady then SelectCase.errCh
  else if doneReady then SelectCase.done
  else SelectCase.dflt

/-- The outside world as seen by one evaluation of the `select`: whether the
caller cancels the context before it, whether a finished `run` goroutine is
blocked sending on `errCh`, and the choice made when both cases are ready. -/
structure SelectEnv where
  cancel : Bool
  errReady : Bool
  pickErr : Bool
  deriving DecidableEq, Repr

/-- Actions of `monitorHealth`, in program order. -/
inductive MonitorAct where
  /-- The statement `go run()`. -/
  | goRun
  /-- A value is received from `errCh`: the `run` that sent it has returned. -/
  | recvErr
  /-- The call `context.WithCancel(context.Background())`, giving the context with this handle. -/
  | WithCancel (handle : Nat)
  /-- The call `wsConn.Connect()`, made under the context with this handle, and its result. -/
  | Connect (ctx : Nat) (result : Option GoError)
  /-- The call `log.Println("failed to reconnect ", err)` with the error of the `Connect` just made. -/
  | logFailure
  deriving DecidableEq, Repr

/-- The result of `monitorHealth`: the returned `error`, the final value of the
local `attemptNumber`, the connection state and the actions performed.  `conn`
holds what `monitorHealth` itself has written and the deferred `Close` of every
`run` that it has received from; the identity stores and handler calls that a
session makes while it runs are described by `readLoop` and are not replayed. -/
structure MonitorResult where
  err : Option GoError
  attemptNumber : Int
  conn : WebsocketConn
  acts : List MonitorAct
  deriving DecidableEq, Repr

/-- The inner loop `for i := 0; i < wsConn.maxReconnectAttempts; i++` (lines 87-94),
with `remaining` iterations left and loop counter `i`.  `connects i` is the
outside world seen by the `Connect` call of iteration `i`. -/
def reconnectAttempts (decode : String → Except GoError Event) (connects : Nat → ConnectEnv) :
    Nat → Nat → WebsocketConn → WebsocketConn × List MonitorAct
  | 0, _, w => (w, [])
  | remaining + 1, i, w =>
    let w := w.withFreshContext
    let c := Connect decode (connects i) w
    match c.1 with
    | some e =>
      let r := reconnectAttempts decode connects remaining (i + 1) c.2
      (r.1, [MonitorAct.WithCancel w.Context.handle, MonitorAct.Connect w.Context.handle (some e),
              MonitorAct.logFailure] ++ r.2)
    | none =>
      let r := reconnectAttempts decode connects remaining (i + 1) c.2
      (r.1, [MonitorAct.WithCancel w.Context.handle, MonitorAct.Connect w.Context.handle none,
              MonitorAct.goRun] ++ r.2)

/-- The `default` case of the `select` (lines 85-95): one reconnection sweep.
The loop runs `maxReconnectAttempts` times (not at all when that is negative). -/
def reconnectSweep (decode : String → Except GoError Event) (connects : Nat → ConnectEnv)
    (attemptNumber : Int) (w : WebsocketConn) : MonitorResult :=
  let attemptNumber := attemptNumber + 1
  let r := reconnectAttempts decode connects w.maxReconnectAttempts.toNat 0 w
  { err := some GoError.reconnect, attemptNumber := attemptNumber, conn := r.1, acts := r.2 }

/-- Put actions in front of those of a result. -/
def MonitorResult.after (a : List MonitorAct) (r : MonitorResult) : MonitorResult :=
  { r with acts := a ++ r.acts }

/-- The outer `for` loop of `monitorHealth` (lines 79-97).  `senders` is the
number of `run` goroutines started and not yet received from: `errCh` can be
ready only while it is positive.  `sel iter` is the outside world seen by
evaluation number `iter` of the `select`.  A value arrives on `errCh` only after
the `run` that sends it has returned, so on a receive the connection state is
`w.afterRun`.  The last branch is never reached: with no sender left `errCh` is
not ready, so `selectCase` does not choose it. -/
def monitorLoop (decode : String → Except GoError Event) (connects : Nat → ConnectEnv)
    (sel : Nat → SelectEnv) : Nat → Nat → Int → WebsocketConn → MonitorResult
  | senders, iter, attemptNumber, w =>
    let w := if (sel iter).cancel then w.cancel else w
    match selectCase ((sel iter).errReady && senders != 0) w.Context.cancelled (sel iter).pickErr with
    | SelectCase.done =>
      { err := w.Context.Err, attemptNumber := attemptNumber, conn := w, acts := [] }
    | SelectCase.dflt => reconnectSweep decode connects attemptNumber w
    | SelectCase.errCh =>
      match senders with
      | s + 1 =>
        (monitorLoop decode connects sel s (iter + 1) attemptNumber w.afterRun).after
          [MonitorAct.recvErr]
      | 0 => reconnectSweep decode connects attemptNumber w

/-- The method `monitorHealth` (lines 71-98): one `run` goroutine is started, then the loop. -/
def monitorHealth (decode : String → Except GoError Event) (connects : Nat → ConnectEnv)
    (sel : Nat → SelectEnv) (w : WebsocketConn) : MonitorResult :=
  (monitorLoop decode connects sel 1 0 0 w).after [MonitorAct.goRun]

/-! ## Observations used in the statements -/

/-- The event that one iteration of the read loop obtains, if it obtains one:
the context is not cancelled, `readEvent` succeeds and the buffer decodes. -/
def IterEnv.event (decode : String → Except GoError Event) (it : IterEnv) : Option Event :=
  if it.cancel then none
  else
    match (readEvent it.read "").err with
    | some _ => none
    | none =>
      match decode (readEvent it.read "").buffer with
      | Except.ok e => some e
      | Except.error _ => none

/-- The events that a read loop started under a live context reads and decodes
from a script: those of the iterations before the first one that obtains none. -/
def received (decode : String → Except GoError Event) : List IterEnv → List Event
  | [] => []
  | it :: rest =>
    match it.event decode with
    | none => []
    | some e => e :: received decode rest

/-- Whether an event is a health-check event. -/
def Event.isHealthCheck (e : Event) : Bool := e.type == EventHealthCheck

/-- The `ConnectionID` of the last health-check event of a sequence, if there is one. -/
def lastHealthCheckID (es : List Event) : Option String :=
  (es.filter Event.isHealthCheck).getLast?.map Event.ConnectionID

/-- Whether every `NextFrame` call of a call sequence has a `SetReadDeadline`
of its own: one issued after the previous `NextFrame`.  `armed` tells whether a
deadline has been set since the last `NextFrame`. -/
def armedBeforeEachFrame : Bool → List NetCall → Bool
  | _, [] => true
  | _, NetCall.SetReadDeadline _ :: cs => armedBeforeEachFrame true cs
  | armed, NetCall.NextFrame :: cs => armed && armedBeforeEachFrame false cs
  | armed, _ :: cs => armedBeforeEachFrame armed cs

/-- Whether a network call is a `SetReadDeadline`. -/
def NetCall.isSetReadDeadline : NetCall → Bool
  | NetCall.SetReadDeadline _ => true
  | _ => false

/-- Whether an action of the supervisor is a call of `Connect`. -/
def MonitorAct.isConnect : MonitorAct → Bool
  | MonitorAct.Connect _ _ => true
  | _ => false

/-- The actions of a sweep of `n` attempts in which every `Connect` fails, started
in state `w`: attempt `i` creates the context with the next unused handle,
calls `Connect` under it and logs the failure. -/
def failedSweepActs (decode : String → Except GoError Event) (connects : Nat → ConnectEnv)
    (w : WebsocketConn) (n : Nat) : List MonitorAct :=
  (List.range n).flatMap fun i =>
    [MonitorAct.WithCancel (w.ctxSeq + i),
     MonitorAct.Connect (w.ctxSeq + i) (Connect decode (connects i) w).1,
     MonitorAct.logFailure]

/-- An operation on a connection that can store the identity. -/
inductive Op where
  | connect (env : ConnectEnv)
  | readLoop (script : List IterEnv)

/-- The state after an operation. -/
def Op.apply (decode : String → Except GoError Event) : Op → WebsocketConn → WebsocketConn
  | Op.connect env, w => (Connect decode env w).2
  | Op.readLoop script, w => (StreamChat.readLoop decode script w).2

/-- Whether an operation started in state `w` is a `Connect` that succeeds or a
read loop that processes a health-check event. -/
def Op.stores (decode : String → Except GoError Event) : Op → WebsocketConn → Bool
  | Op.connect env, w => (Connect decode env w).1.isNone
  | Op.readLoop script, w =>
    !w.Context.cancelled && (received decode script).any Event.isHealthCheck

/-- The state after a history of operations. -/
def applyOps (decode : String → Except GoError Event) : List Op → WebsocketConn → WebsocketConn
  | [], w => w
  | op :: ops, w => applyOps decode ops (op.apply decode w)

/-- Whether some operation of a history stores the identity. -/
def everStored (decode : String → Except GoError Event) : List Op → WebsocketConn → Bool
  | [], _ => false
  | op :: ops, w => op.stores decode w || everStored decode ops (op.apply decode w)

/-! ## Sample inputs -/

/-- A decoder for three sample messages. -/
def sampleDecode (s : String) : Except GoError Event :=
  if s = "hc1" then Except.ok ⟨EventHealthCheck, "c1", ""⟩
  else if s = "hc2" then Except.ok ⟨EventHealthCheck, "c2", ""⟩
  else if s = "msg" then Except.ok ⟨"message.new", "m", "hello"⟩
  else Except.error (GoError.decode s)

/-- The peer sends one text frame with the given payload. -/
def textFrame (s : String) : ReadEnv :=
  { now := 0, deadlineErr := none, wire := [WireStep.frame 1 s none] }

/-- The peer sends a ping control frame (opcode 9) and then a text frame. -/
def pingThenText : ReadEnv :=
  { now := 0, deadlineErr := none, wire := [WireStep.frame 9 "" none, WireStep.frame 1 "msg" none] }

/-- A dial that is refused. -/
def failDial : ConnectEnv :=
  { dial := Except.error (GoError.net "refused"), read := { now := 0, deadlineErr := none, wire := [] } }

/-- A dial that succeeds, followed by a health-check handshake message. -/
def okDial : ConnectEnv :=
  { dial := Except.ok 7, read := textFrame "hc1" }

/-- A dial that succeeds, followed by a first message that is not a health check. -/
def msgDial : ConnectEnv :=
  { dial := Except.ok 7, read := textFrame "msg" }

/-- A dial that succeeds, after which the peer stays silent. -/
def silentDial : ConnectEnv :=
  { dial := Except.ok 7, read := { now := 0, deadlineErr := none, wire := [] } }

/-- A dial that succeeds, followed by a first message that does not decode. -/
def garbledDial : ConnectEnv :=
  { dial := Except.ok 7, read := textFrame "???" }

/-- A session that is healthy and a caller that never cancels: no case of the `select` is ready. -/
def quietSelect : Nat → SelectEnv :=
  fun _ => { cancel := false, errReady := false, pickErr := false }

/-- A session whose `run` has failed, with the scheduler preferring `errCh`. -/
def errFirstSelect : Nat → SelectEnv :=
  fun _ => { cancel := false, errReady := true, pickErr := true }


/-- A session whose `run` has failed, received at the first evaluation of the
`select`, and a caller who cancels before the second evaluation. -/
def cancelAfterError : Nat → SelectEnv :=
  fun i => { cancel := i == 1, errReady := true, pickErr := true }

/-- The first reconnection attempt succeeds, the later ones are refused. -/
def firstAttemptSucceeds : Nat → ConnectEnv :=
  fun i => if i = 0 then okDial else failDial

/-- A keepalive iteration whose write fails. -/
def brokenPing : PingEnv :=
  { cancel := false, now := 0, deadlineErr := none, writeErr := some (GoError.net "broken pipe") }

/-- A read-loop iteration in which the peer stays silent. -/
def silentRead : IterEnv :=
  { cancel := false, read := { now := 0, deadlineErr := none, wire := [] } }

/-- Three messages: a domain event, a health check, a domain event. -/
def sampleScript : List IterEnv :=
  [{ cancel := false, read := textFrame "msg" },
   { cancel := false, read := textFrame "hc2" },
   { cancel := false, read := textFrame "msg" }]

/-! ## Lemmas on the read loop -/

theorem lastHealthCheckID_cons (e : Event) (es : List Event) :
    lastHealthCheckID (e :: es) =
      match lastHealthCheckID es with
      | some c => some c
      | none => if e.isHealthCheck then some e.ConnectionID else none := by
  unfold lastHealthCheckID
  by_cases h : e.isHealthCheck = true
  · rw [List.filter_cons_of_pos h, List.getLast?_cons]
    cases (List.filter Event.isHealthCheck es).getLast? <;> simp [h]
  · rw [List.filter_cons_of_neg h]
    cases (List.filter Event.isHealthCheck es).getLast? <;> simp [h]

theorem readLoop_effect (decode : String → Except GoError Event) (script : List IterEnv) :
    ∀ w : WebsocketConn, w.Context.cancelled = false →
      (readLoop decode script w).2.handled
          = w.handled ++ (received decode script).filter (fun e => !e.isHealthCheck) ∧
      (readLoop decode script w).2.id
          = (match lastHealthCheckID (received decode script) with
            | some c => some c
            | none => w.id) := by
  induction script with
  | nil => intro w _; simp [readLoop, received, lastHealthCheckID]
  | cons it rest ih =>
    intro w hctx
    unfold readLoop received IterEnv.event
    cases hc : it.cancel
    · simp only [hctx, Bool.false_eq_true, if_false]
      cases hr : (readEvent it.read "").err with
      | some e => simp [lastHealthCheckID]
      | none =>
        cases hd : decode (readEvent it.read "").buffer with
        | error e => simp [lastHealthCheckID]
        | ok ev =>
          simp only [lastHealthCheckID_cons]
          by_cases ht : ev.type = EventHealthCheck
          · have hh : ev.isHealthCheck = true := by simp [Event.isHealthCheck, ht]
            have := ih { w with id := some ev.ConnectionID } hctx
            simp only [ht, if_true, hh, List.filter_cons]
            rw [this.1, this.2]
            constructor
            · simp
            · cases lastHealthCheckID (received decode rest) <;> simp
          · have hh : ev.isHealthCheck = false := by simp [Event.isHealthCheck, ht]
            have := ih { w with handled := w.handled ++ [ev] } hctx
            simp only [ht, if_false, hh, List.filter_cons]
            rw [this.1, this.2]
            constructor
            · simp
            · cases lastHealthCheckID (received decode rest) <;> simp
    · simp [WebsocketConn.cancel, lastHealthCheckID]

theorem lastHealthCheckID_isSome (es : List Event) :
    (lastHealthCheckID es).isSome = es.any Event.isHealthCheck := by
  induction es with
  | nil => simp [lastHealthCheckID]
  | cons e es ih =>
    rw [lastHealthCheckID_cons, List.any_cons, ← ih]
    cases lastHealthCheckID es <;> cases e.isHealthCheck <;> simp

theorem readLoop_cancelled_id (decode : String → Except GoError Event) (script : List IterEnv)
    (w : WebsocketConn) (hctx : w.Context.cancelled = true) :
    (readLoop decode script w).2.id = w.id := by
  cases script with
  | nil => simp [readLoop]
  | cons it rest =>
    unfold readLoop
    cases it.cancel <;> simp [hctx, WebsocketConn.cancel]

/-! ## Lemmas on `Connect` -/

theorem Connect_ok (decode : String → Except GoError Event) (env : ConnectEnv) (w : WebsocketConn)
    (c : Nat) (e : Event) (hd : env.dial = Except.ok c) (hr : (readEvent env.read "").err = none)
    (he : decode (readEvent env.read "").buffer = Except.ok e) :
    Connect decode env w =
      (none, { w with Conn := some { handle := c, closed := false }, id := some e.ConnectionID }) := by
  simp [Connect, hd, hr, he]

theorem Connect_dial_err (decode : String → Except GoError Event) (env : ConnectEnv)
    (w : WebsocketConn) (e : GoError) (hd : env.dial = Except.error e) :
    Connect decode env w = (some e, w) := by
  simp [Connect, hd]

theorem Connect_read_err (decode : String → Except GoError Event) (env : ConnectEnv)
    (w : WebsocketConn) (c : Nat) (e : GoError) (hd : env.dial = Except.ok c)
    (hr : (readEvent env.read "").err = some e) :
    Connect decode env w = (some e, { w with Conn := some { handle := c, closed := false } }) := by
  simp [Connect, hd, hr]

theorem Connect_decode_err (decode : String → Except GoError Event) (env : ConnectEnv)
    (w : WebsocketConn) (c : Nat) (e : GoError) (hd : env.dial = Except.ok c)
    (hr : (readEvent env.read "").err = none)
    (he : decode (readEvent env.read "").buffer = Except.error e) :
    Connect decode env w = (some e, { w with Conn := some { handle := c, closed := false } }) := by
  simp [Connect, hd, hr, he]

/-- The four ways in which `Connect` ends. -/
theorem Connect_cases (decode : String → Except GoError Event) (env : ConnectEnv)
    (w : WebsocketConn) :
    (∃ e, Connect decode env w = (some e, w)) ∨
    (∃ c e, Connect decode env w
        = (some e, { w with Conn := some { handle := c, closed := false } })) ∨
    (∃ c e, env.dial = Except.ok c ∧ (readEvent env.read "").err = none ∧
      decode (readEvent env.read "").buffer = Except.ok e ∧
      Connect decode env w =
        (none, { w with Conn := some { handle := c, closed := false },
                        id := some e.ConnectionID })) := by
  cases hd : env.dial with
  | error e => exact Or.inl ⟨e, Connect_dial_err decode env w e hd⟩
  | ok c =>
    cases hr : (readEvent env.read "").err with
    | some e => exact Or.inr (Or.inl ⟨c, e, Connect_read_err decode env w c e hd hr⟩)
    | none =>
      cases he : decode (readEvent env.read "").buffer with
      | error e => exact Or.inr (Or.inl ⟨c, e, Connect_decode_err decode env w c e hd hr he⟩)
      | ok e => exact Or.inr (Or.inr ⟨c, e, rfl, rfl, rfl, Connect_ok decode env w c e hd hr he⟩)

theorem Connect_success_inv (decode : String → Except GoError Event) (env : ConnectEnv)
    (w : WebsocketConn) (h : (Connect decode env w).1 = none) :
    ∃ c e, env.dial = Except.ok c ∧ (readEvent env.read "").err = none ∧
      decode (readEvent env.read "").buffer = Except.ok e := by
  rcases Connect_cases decode env w with ⟨e, he⟩ | ⟨c, e, he⟩ | ⟨c, e, hd, hr, hdec, _⟩
  · simp [he] at h
  · simp [he] at h
  · exact ⟨c, e, hd, hr, hdec⟩

theorem Connect_failure_id (decode : String → Except GoError Event) (env : ConnectEnv)
    (w : WebsocketConn) (h : (Connect decode env w).1 ≠ none) :
    (Connect decode env w).2.id = w.id := by
  rcases Connect_cases decode env w with ⟨e, he⟩ | ⟨c, e, he⟩ | ⟨c, e, _, _, _, he⟩
  · simp [he]
  · simp [he]
  · simp [he] at h

theorem Connect_context (decode : String → Except GoError Event) (env : ConnectEnv)
    (w : WebsocketConn) :
    (Connect decode env w).2.Context = w.Context ∧ (Connect decode env w).2.ctxSeq = w.ctxSeq := by
  rcases Connect_cases decode env w with ⟨e, he⟩ | ⟨c, e, he⟩ | ⟨c, e, _, _, _, he⟩ <;> simp [he]

theorem Connect_err_indep (decode : String → Except GoError Event) (env : ConnectEnv)
    (w w2 : WebsocketConn) : (Connect decode env w).1 = (Connect decode env w2).1 := by
  cases hd : env.dial with
  | error e => rw [Connect_dial_err decode env w e hd, Connect_dial_err decode env w2 e hd]
  | ok c =>
    cases hr : (readEvent env.read "").err with
    | some e => rw [Connect_read_err decode env w c e hd hr, Connect_read_err decode env w2 c e hd hr]
    | none =>
      cases he : decode (readEvent env.read "").buffer with
      | error e =>
        rw [Connect_decode_err decode env w c e hd hr he, Connect_decode_err decode env w2 c e hd hr he]
      | ok e => rw [Connect_ok decode env w c e hd hr he, Connect_ok decode env w2 c e hd hr he]

theorem Op_apply_id (decode : String → Except GoError Event) (op : Op) (w : WebsocketConn) :
    (op.apply decode w).id.isSome = (w.id.isSome || op.stores decode w) := by
  cases op with
  | connect env =>
    simp only [Op.apply, Op.stores]
    cases h : (Connect decode env w).1 with
    | none =>
      obtain ⟨c, e, hd, hr, he⟩ := Connect_success_inv decode env w h
      simp [Connect_ok decode env w c e hd hr he]
    | some e =>
      have := Connect_failure_id decode env w (by simp [h])
      simp [this]
  | readLoop script =>
    simp only [Op.apply, Op.stores]
    cases hc : w.Context.cancelled
    · rw [(readLoop_effect decode script w hc).2, ← lastHealthCheckID_isSome]
      cases lastHealthCheckID (received decode script) <;> simp
    · rw [readLoop_cancelled_id decode script w hc]; simp

theorem applyOps_id (decode : String → Except GoError Event) (ops : List Op) :
    ∀ w : WebsocketConn,
      (applyOps decode ops w).id.isSome = (w.id.isSome || everStored decode ops w) := by
  induction ops with
  | nil => intro w; simp [applyOps, everStored]
  | cons op ops ih =>
    intro w
    simp only [applyOps, everStored]
    rw [ih, Op_apply_id, Bool.or_assoc]

theorem ID_error_iff (w : WebsocketConn) :
    ID w = Except.error GoPanic.nilInterfaceConversion ↔ w.id.isSome = false := by
  unfold ID; cases w.id <;> simp

theorem ID_ok_iff (w : WebsocketConn) : (∃ s, ID w = Except.ok s) ↔ w.id.isSome = true := by
  unfold ID; cases w.id <;> simp

/-! ## Properties of the read loop and of the identity -/

/-- C1: when the read loop runs under a live context, the handler is called
exactly once for each event that the loop reads and decodes whose type is not
the health-check type, in arrival order, and never for a health-check event:
the handler log grows by the received events with the health checks removed. -/
theorem readLoop_dispatches_in_order (decode : String → Except GoError Event)
    (script : List IterEnv) (w : WebsocketConn) (hctx : w.Context.cancelled = false) :
    (readLoop decode script w).2.handled =
      w.handled ++ (received decode script).filter (fun e => decide (e.type ≠ EventHealthCheck)) := by
  rw [(readLoop_effect decode script w hctx).1]
  congr 1
  apply List.filter_congr
  intro e _
  by_cases h : e.type = EventHealthCheck <;> simp [Event.isHealthCheck, h]

/-- C2: after a `Connect` that succeeds on handshake event `h`, and a read loop
over any script, `ID` returns the `ConnectionID` of the last health-check event
received, or that of `h` when none was received. -/
theorem ID_after_connect_and_readLoop (decode : String → Except GoError Event) (env : ConnectEnv)
    (w : WebsocketConn) (h : Event) (script : List IterEnv)
    (hconn : (Connect decode env w).1 = none)
    (hh : decode (readEvent env.read "").buffer = Except.ok h)
    (hctx : w.Context.cancelled = false) :
    ID (readLoop decode script (Connect decode env w).2).2 =
      Except.ok ((lastHealthCheckID (received decode script)).getD h.ConnectionID) := by
  obtain ⟨c, e, hd, hr, he⟩ := Connect_success_inv decode env w hconn
  have heq : e = h := by rw [he] at hh; exact Except.ok.inj hh
  subst heq
  rw [Connect_ok decode env w c e hd hr he]
  simp only [ID]
  rw [(readLoop_effect decode script _ (by simpa using hctx)).2]
  cases lastHealthCheckID (received decode script) <;> simp

/-- C10: on a connection obtained from `NewWebsocketConn` by any history of
`Connect` calls and read loops, `ID` fails with the nil type assertion exactly
when no `Connect` has succeeded and no read loop has processed a health-check
event, and returns a string exactly when one has; the result of `ID` depends
only on the stored identity, so calls without a store in between agree. -/
theorem ID_fails_iff_never_stored (decode : String → Except GoError Event) (ops : List Op)
    (url : String) (maxReconnectAttempts : Int) :
    (ID (applyOps decode ops (NewWebsocketConn url maxReconnectAttempts))
        = Except.error GoPanic.nilInterfaceConversion ↔
      everStored decode ops (NewWebsocketConn url maxReconnectAttempts) = false) ∧
    ((∃ s, ID (applyOps decode ops (NewWebsocketConn url maxReconnectAttempts)) = Except.ok s) ↔
      everStored decode ops (NewWebsocketConn url maxReconnectAttempts) = true) ∧
    (∀ w1 w2 : WebsocketConn, w1.id = w2.id → ID w1 = ID w2) := by
  have h := applyOps_id decode ops (NewWebsocketConn url maxReconnectAttempts)
  have h0 : (NewWebsocketConn url maxReconnectAttempts).id.isSome = false := rfl
  rw [h0, Bool.false_or] at h
  refine ⟨?_, ?_, ?_⟩
  · rw [ID_error_iff, h]
  · rw [ID_ok_iff, h]
  · intro w1 w2 hid
    simp [ID, hid]

/-! ## Lemmas on `readEvent` -/

theorem readFrames_no_deadline (wire : List WireStep) :
    ∀ buffer : String, ∀ c ∈ (readFrames wire buffer).calls, c.isSetReadDeadline = false := by
  induction wire with
  | nil => intro buffer c hc; simp [readFrames] at hc; subst hc; rfl
  | cons step rest ih =>
    intro buffer c hc
    cases step with
    | nextFrameErr e => simp [readFrames] at hc; subst hc; rfl
    | frame op payload herr =>
      unfold readFrames at hc
      split at hc
      · cases herr with
        | some e => simp at hc; rcases hc with rfl | rfl <;> rfl
        | none =>
          simp [ReadResult.after] at hc
          rcases hc with rfl | rfl | h
          · rfl
          · rfl
          · exact ih buffer c h
      · split at hc
        · cases herr with
          | some e => simp at hc; rcases hc with rfl | rfl <;> rfl
          | none =>
            simp [ReadResult.after] at hc
            rcases hc with rfl | rfl | h
            · rfl
            · rfl
            · exact ih buffer c h
        · simp at hc; rcases hc with rfl | rfl <;> rfl

/-- C9 (as the code has it): every call of `readEvent` arms the 35-second read
deadline exactly once, as its first network call, before the first
`NextFrame`; no further `SetReadDeadline` is issued between the frames that the
call consumes, and when arming fails no frame is read. -/
theorem readEvent_arms_deadline_once (env : ReadEnv) (buffer : String) :
    ∃ rest : List NetCall,
      (readEvent env buffer).calls = NetCall.SetReadDeadline (env.now + 35) :: rest ∧
      (∀ c ∈ rest, c.isSetReadDeadline = false) ∧
      (env.deadlineErr ≠ none → rest = []) ∧
      (env.deadlineErr = none → NetCall.NextFrame ∈ rest) := by
  unfold readEvent
  cases hd : env.deadlineErr with
  | some e => exact ⟨[], rfl, by simp, by simp, by simp⟩
  | none =>
    refine ⟨(readFrames env.wire buffer).calls, by simp [ReadResult.after], ?_, by simp, ?_⟩
    · exact readFrames_no_deadline env.wire buffer
    · intro _
      cases hw : env.wire with
      | nil => simp [readFrames]
      | cons step rest =>
        cases step with
        | nextFrameErr e => simp [readFrames]
        | frame op payload herr =>
          unfold readFrames
          split
          · cases herr <;> simp [ReadResult.after]
          · split
            · cases herr <;> simp [ReadResult.after]
            · simp

/-- C9 (counterexample): when a ping control frame precedes the text frame,
`readEvent` calls `NextFrame` twice after a single `SetReadDeadline`; the
second `NextFrame` has no deadline of its own. -/
theorem readEvent_second_frame_not_rearmed :
    (readEvent pingThenText "").err = none ∧
    (readEvent pingThenText "").calls =
      [NetCall.SetReadDeadline 35, NetCall.NextFrame, NetCall.controlHandler 9,
       NetCall.NextFrame, NetCall.ReadFrom] ∧
    armedBeforeEachFrame false (readEvent pingThenText "").calls = false := by
  decide

/-- C3 (counterexample): the first message after dialing decodes to an event of
type `message.new`, yet `Connect` returns `nil` and replaces the identity. -/
theorem Connect_accepts_non_health_check :
    sampleDecode (readEvent msgDial.read "").buffer = Except.ok ⟨"message.new", "m", "hello"⟩ ∧
    "message.new" ≠ EventHealthCheck ∧
    (NewWebsocketConn "u" 2).id = none ∧
    (Connect sampleDecode msgDial (NewWebsocketConn "u" 2)).1 = none ∧
    (Connect sampleDecode msgDial (NewWebsocketConn "u" 2)).2.id = some "m" :=
  ⟨by rfl, by decide, by decide, by decide, by decide⟩

/-- C3 (as the code has it): `Connect` returns an error, and leaves the identity
unchanged, whenever dialing fails, the first message cannot be read, or it does
not decode; the error returned is the one of the failing step.  When dialing
succeeds and the first message is read and decodes to an event, `Connect`
returns `nil` and stores the `ConnectionID` of that event, whatever the type of
the event: no check of the type is made. -/
theorem Connect_stores_first_event (decode : String → Except GoError Event) (env : ConnectEnv)
    (w : WebsocketConn) (c : Nat) (e : Event) (hd : env.dial = Except.ok c)
    (hr : (readEvent env.read "").err = none)
    (he : decode (readEvent env.read "").buffer = Except.ok e) :
    ((Connect decode env w).1 = none ∧ (Connect decode env w).2.id = some e.ConnectionID) ∧
    (∀ env2 : ConnectEnv, (Connect decode env2 w).1 ≠ none → (Connect decode env2 w).2.id = w.id) ∧
    (∀ (env2 : ConnectEnv) (err : GoError), env2.dial = Except.error err →
      (Connect decode env2 w).1 = some err ∧ (Connect decode env2 w).2.id = w.id) ∧
    (∀ (env2 : ConnectEnv) (c2 : Nat) (err : GoError), env2.dial = Except.ok c2 →
      (readEvent env2.read "").err = some err →
      (Connect decode env2 w).1 = some err ∧ (Connect decode env2 w).2.id = w.id) ∧
    (∀ (env2 : ConnectEnv) (c2 : Nat) (err : GoError), env2.dial = Except.ok c2 →
      (readEvent env2.read "").err = none →
      decode (readEvent env2.read "").buffer = Except.error err →
      (Connect decode env2 w).1 = some err ∧ (Connect decode env2 w).2.id = w.id) := by
  refine ⟨?_, fun env2 h => Connect_failure_id decode env2 w h, ?_, ?_, ?_⟩
  · rw [Connect_ok decode env w c e hd hr he]
    exact ⟨rfl, rfl⟩
  · intro env2 err h
    rw [Connect_dial_err decode env2 w err h]
    exact ⟨rfl, rfl⟩
  · intro env2 c2 err h1 h2
    rw [Connect_read_err decode env2 w c2 err h1 h2]
    exact ⟨rfl, rfl⟩
  · intro env2 c2 err h1 h2 h3
    rw [Connect_decode_err decode env2 w c2 err h1 h2 h3]
    exact ⟨rfl, rfl⟩

/-! ## Lemmas on the supervisor -/

theorem cancel_of_cancelled (w : WebsocketConn) (hc : w.Context.cancelled = true) :
    w.cancel = w := by
  cases w with
  | mk id handled url ctx conn err m st cs =>
    cases ctx with
    | mk handle cancelled =>
      simp only at hc
      subst hc
      rfl

theorem reconnectAttempts_fail_step (decode : String → Except GoError Event)
    (connects : Nat → ConnectEnv) (n i : Nat) (w : WebsocketConn) (e : GoError)
    (hc : (Connect decode (connects i) w.withFreshContext).1 = some e) :
    (reconnectAttempts decode connects (n + 1) i w).2 =
      [MonitorAct.WithCancel w.ctxSeq, MonitorAct.Connect w.ctxSeq (some e),
        MonitorAct.logFailure] ++
      (reconnectAttempts decode connects n (i + 1)
        (Connect decode (connects i) w.withFreshContext).2).2 := by
  rw [reconnectAttempts]
  simp only [hc]
  rfl

theorem reconnectAttempts_all_fail (decode : String → Except GoError Event)
    (connects : Nat → ConnectEnv)
    (hfail : ∀ i w2, (Connect decode (connects i) w2).1 ≠ none) (w0 : WebsocketConn) :
    ∀ (n i : Nat) (w : WebsocketConn),
      (reconnectAttempts decode connects n i w).2 =
        (List.range n).flatMap fun j =>
          [MonitorAct.WithCancel (w.ctxSeq + j),
           MonitorAct.Connect (w.ctxSeq + j) (Connect decode (connects (i + j)) w0).1,
           MonitorAct.logFailure] := by
  intro n
  induction n with
  | zero => intro i w; simp [reconnectAttempts]
  | succ n ih =>
    intro i w
    cases hc : (Connect decode (connects i) w.withFreshContext).1 with
    | none => exact absurd hc (hfail i _)
    | some e =>
      rw [reconnectAttempts_fail_step decode connects n i w e hc,
        ih (i + 1) (Connect decode (connects i) w.withFreshContext).2,
        (Connect_context decode (connects i) w.withFreshContext).2,
        List.range_succ_eq_map, List.flatMap_cons, List.flatMap_map]
      have he : (Connect decode (connects i) w0).1 = some e := by
        rw [Connect_err_indep decode (connects i) w0 w.withFreshContext]; exact hc
      simp only [WebsocketConn.withFreshContext, Nat.add_zero, he]
      congr 1
      apply List.flatMap_congr
      intro j _
      simp only [Function.comp, Nat.succ_eq_add_one]
      rw [show w.ctxSeq + 1 + j = w.ctxSeq + (j + 1) by omega,
        show i + 1 + j = i + (j + 1) by omega]

theorem countP_failedSweepActs (decode : String → Except GoError Event)
    (connects : Nat → ConnectEnv) (w : WebsocketConn) (n : Nat) :
    (failedSweepActs decode connects w n).countP MonitorAct.isConnect = n := by
  unfold failedSweepActs
  induction n with
  | zero => simp
  | succ n ih =>
    rw [List.range_succ, List.flatMap_append, List.countP_append, ih]
    simp [MonitorAct.isConnect, List.countP_cons]

theorem reconnectSweep_all_fail (decode : String → Except GoError Event)
    (connects : Nat → ConnectEnv)
    (hfail : ∀ i w2, (Connect decode (connects i) w2).1 ≠ none) (a : Int) (w : WebsocketConn) :
    (reconnectSweep decode connects a w).err = some GoError.reconnect ∧
    (reconnectSweep decode connects a w).acts
      = failedSweepActs decode connects w w.maxReconnectAttempts.toNat := by
  unfold reconnectSweep failedSweepActs
  refine ⟨rfl, ?_⟩
  simp only
  rw [reconnectAttempts_all_fail decode connects hfail w]
  simp


/-- With no sender left, `errCh` is not ready and the `select` never chooses it:
the last branch of `monitorLoop` is not reached. -/
theorem selectCase_no_sender (errReady doneReady pickErr : Bool) :
    selectCase (errReady && (0 : Nat) != 0) doneReady pickErr ≠ SelectCase.errCh := by
  cases errReady <;> cases doneReady <;> cases pickErr <;> decide

/-- A sweep ends with the error `failed to reconnect` whatever its `Connect` calls return. -/
theorem reconnectSweep_err (decode : String → Except GoError Event)
    (connects : Nat → ConnectEnv) (a : Int) (w : WebsocketConn) :
    (reconnectSweep decode connects a w).err = some GoError.reconnect := rfl

theorem env_cancel_of_cancelled (b : Bool) (w : WebsocketConn) (hc : w.Context.cancelled = true) :
    (if b then w.cancel else w) = w := by
  cases b
  · rfl
  · exact cancel_of_cancelled w hc

theorem afterRun_fields (w : WebsocketConn) :
    w.afterRun.Context = w.Context ∧ w.afterRun.ctxSeq = w.ctxSeq ∧
    w.afterRun.maxReconnectAttempts = w.maxReconnectAttempts := by
  unfold WebsocketConn.afterRun WebsocketConn.Close
  cases w.Conn <;> simp

theorem env_cancel_context (b : Bool) (w : WebsocketConn)
    (h : w.Context.cancelled = true ∨ b = true) :
    (if b then w.cancel else w).Context = { w.Context with cancelled := true } := by
  cases b with
  | true => rfl
  | false =>
    rcases h with h | h
    · simp only [Bool.false_eq_true, if_false]
      cases hc : w.Context with
      | mk handle cancelled =>
        rw [hc] at h
        simp only at h
        subst h
        rfl
    · exact absurd h (by decide)

theorem monitorLoop_done (decode : String → Except GoError Event)
    (connects : Nat → ConnectEnv) (sel : Nat → SelectEnv) (senders iter : Nat) (a : Int)
    (w : WebsocketConn)
    (h : selectCase ((sel iter).errReady && senders != 0)
      (if (sel iter).cancel then w.cancel else w).Context.cancelled (sel iter).pickErr
        = SelectCase.done) :
    monitorLoop decode connects sel senders iter a w =
      { err := (if (sel iter).cancel then w.cancel else w).Context.Err, attemptNumber := a,
        conn := (if (sel iter).cancel then w.cancel else w), acts := [] } := by
  rw [monitorLoop.eq_def]
  simp only [h]

theorem monitorLoop_recv (decode : String → Except GoError Event)
    (connects : Nat → ConnectEnv) (sel : Nat → SelectEnv) (s iter : Nat) (a : Int)
    (w : WebsocketConn)
    (h : selectCase ((sel iter).errReady && (s + 1) != 0)
      (if (sel iter).cancel then w.cancel else w).Context.cancelled (sel iter).pickErr
        = SelectCase.errCh) :
    monitorLoop decode connects sel (s + 1) iter a w =
      (monitorLoop decode connects sel s (iter + 1) a
        (if (sel iter).cancel then w.cancel else w).afterRun).after [MonitorAct.recvErr] := by
  rw [monitorLoop.eq_def]
  simp only [h]

theorem selectCase_done_ready (errReady pickErr : Bool) :
    selectCase errReady true pickErr = SelectCase.done ∨
    (errReady = true ∧ selectCase errReady true pickErr = SelectCase.errCh) := by
  cases errReady <;> cases pickErr <;> simp [selectCase]

/-- Once the context is cancelled at an evaluation of the `select`, the loop ends
with the cancellation error after at most `senders` receives, whatever is chosen. -/
theorem monitorLoop_cancelled (decode : String → Except GoError Event)
    (connects : Nat → ConnectEnv) (sel : Nat → SelectEnv) :
    ∀ (senders iter : Nat) (a : Int) (w : WebsocketConn),
      (w.Context.cancelled = true ∨ (sel iter).cancel = true) →
      (monitorLoop decode connects sel senders iter a w).err = some GoError.canceled ∧
      (monitorLoop decode connects sel senders iter a w).attemptNumber = a ∧
      (monitorLoop decode connects sel senders iter a w).conn.Context
        = { w.Context with cancelled := true } ∧
      ∃ k, k ≤ senders ∧
        (monitorLoop decode connects sel senders iter a w).acts
          = List.replicate k MonitorAct.recvErr := by
  intro senders
  induction senders with
  | zero =>
    intro iter a w h
    have hctx := env_cancel_context (sel iter).cancel w h
    have hsel : selectCase ((sel iter).errReady && (0 : Nat) != 0)
        (if (sel iter).cancel then w.cancel else w).Context.cancelled (sel iter).pickErr
          = SelectCase.done := by
      rw [hctx]
      rcases selectCase_done_ready ((sel iter).errReady && (0 : Nat) != 0) (sel iter).pickErr
        with hd | ⟨he, _⟩
      · exact hd
      · simp at he
    rw [monitorLoop_done decode connects sel 0 iter a w hsel]
    exact ⟨by rw [hctx]; rfl, rfl, hctx, 0, Nat.le_refl 0, rfl⟩
  | succ s ih =>
    intro iter a w h
    have hctx := env_cancel_context (sel iter).cancel w h
    rcases selectCase_done_ready ((sel iter).errReady && (s + 1) != 0) (sel iter).pickErr
      with hd | ⟨_, he⟩
    · have hsel : selectCase ((sel iter).errReady && (s + 1) != 0)
          (if (sel iter).cancel then w.cancel else w).Context.cancelled (sel iter).pickErr
            = SelectCase.done := by rw [hctx]; exact hd
      rw [monitorLoop_done decode connects sel (s + 1) iter a w hsel]
      exact ⟨by rw [hctx]; rfl, rfl, hctx, 0, Nat.zero_le _, rfl⟩
    · have hsel : selectCase ((sel iter).errReady && (s + 1) != 0)
          (if (sel iter).cancel then w.cancel else w).Context.cancelled (sel iter).pickErr
            = SelectCase.errCh := by rw [hctx]; exact he
      have hrec := ih (iter + 1) a (if (sel iter).cancel then w.cancel else w).afterRun
        (Or.inl (by rw [(afterRun_fields _).1, hctx]))
      rw [(afterRun_fields _).1, hctx] at hrec
      obtain ⟨h1, h2, h3, k, hk, h4⟩ := hrec
      rw [monitorLoop_recv decode connects sel s iter a w hsel]
      exact ⟨h1, h2, h3, k + 1, Nat.succ_le_succ hk, by simp [MonitorResult.after, h4]; rfl⟩

theorem monitorLoop_live_zero (decode : String → Except GoError Event)
    (connects : Nat → ConnectEnv) (sel : Nat → SelectEnv) (iter : Nat) (a : Int)
    (w : WebsocketConn) (hc : w.Context.cancelled = false) (hs : (sel iter).cancel = false) :
    monitorLoop decode connects sel 0 iter a w = reconnectSweep decode connects a w := by
  unfold monitorLoop
  simp [hs, hc, selectCase]

theorem monitorLoop_live_one (decode : String → Except GoError Event)
    (connects : Nat → ConnectEnv) (sel : Nat → SelectEnv) (iter : Nat) (a : Int)
    (w : WebsocketConn) (hc : w.Context.cancelled = false) (hs : ∀ i, (sel i).cancel = false) :
    monitorLoop decode connects sel 1 iter a w = reconnectSweep decode connects a w ∨
    monitorLoop decode connects sel 1 iter a w =
      (reconnectSweep decode connects a w.afterRun).after [MonitorAct.recvErr] := by
  have hc2 : w.afterRun.Context.cancelled = false := by rw [(afterRun_fields w).1]; exact hc
  unfold monitorLoop
  cases he : (sel iter).errReady
  · left; simp [hs iter, hc, selectCase]
  · right
    simp [hs iter, hc, selectCase,
      monitorLoop_live_zero decode connects sel (iter + 1) a w.afterRun hc2 (hs (iter + 1))]

theorem failedSweepActs_congr (decode : String → Except GoError Event)
    (connects : Nat → ConnectEnv) (w1 w2 : WebsocketConn) (n : Nat)
    (h : w1.ctxSeq = w2.ctxSeq) :
    failedSweepActs decode connects w1 n = failedSweepActs decode connects w2 n := by
  unfold failedSweepActs
  apply List.flatMap_congr
  intro i _
  rw [h, Connect_err_indep decode (connects i) w1 w2]

/-! ## Properties of the supervisor -/

/-- C6: with a context that is not cancelled, a non-negative
`maxReconnectAttempts` and `Connect` failing on every attempt, `monitorHealth`
runs one sweep that makes exactly `maxReconnectAttempts` calls of `Connect`,
each under a context created just before it with a handle not used before,
starts no `run`, and then returns the non-nil error `failed to reconnect`,
which is not the error of any `Connect`. -/
theorem monitorHealth_exhausts_attempts (decode : String → Except GoError Event)
    (connects : Nat → ConnectEnv) (sel : Nat → SelectEnv) (w : WebsocketConn)
    (hmax : 0 ≤ w.maxReconnectAttempts)
    (hfail : ∀ i w2, (Connect decode (connects i) w2).1 ≠ none)
    (hctx : w.Context.cancelled = false) (hsel : ∀ i, (sel i).cancel = false) :
    (monitorHealth decode connects sel w).err = some GoError.reconnect ∧
    ((monitorHealth decode connects sel w).acts =
        MonitorAct.goRun :: failedSweepActs decode connects w w.maxReconnectAttempts.toNat ∨
      (monitorHealth decode connects sel w).acts =
        MonitorAct.goRun :: MonitorAct.recvErr ::
          failedSweepActs decode connects w w.maxReconnectAttempts.toNat) ∧
    (((monitorHealth decode connects sel w).acts.countP MonitorAct.isConnect : Nat) : Int)
      = w.maxReconnectAttempts := by
  obtain ⟨h1, h2⟩ := reconnectSweep_all_fail decode connects hfail 0 w
  obtain ⟨h3, h4⟩ := reconnectSweep_all_fail decode connects hfail 0 w.afterRun
  rw [(afterRun_fields w).2.2,
    failedSweepActs_congr decode connects w.afterRun w _ (afterRun_fields w).2.1] at h4
  have hcount := countP_failedSweepActs decode connects w w.maxReconnectAttempts.toNat
  unfold monitorHealth
  rcases monitorLoop_live_one decode connects sel 0 0 w hctx hsel with h | h
  · rw [h]
    refine ⟨h1, Or.inl (by simp [MonitorResult.after, h2]), ?_⟩
    simp [MonitorResult.after, h2, List.countP_cons, hcount, MonitorAct.isConnect,
      Int.toNat_of_nonneg hmax]
  · rw [h]
    refine ⟨h3, Or.inr (by simp [MonitorResult.after, h4]), ?_⟩
    simp [MonitorResult.after, h4, List.countP_cons, hcount, MonitorAct.isConnect,
      Int.toNat_of_nonneg hmax]

/-- C7: when the supervisor context is cancelled at an evaluation of the `select`
in `monitorHealth` (cancelled on entry, cancelled by the caller before the first
evaluation, or cancelled before the second evaluation, which takes place when
the first one received from `errCh`), then whatever the `select` chooses, also
when `errCh` is ready too, `monitorHealth` returns the cancellation error of the
context, which it has not replaced, and performs no action other than starting
the first `run` and at most one receive from `errCh`: it creates no context and
calls no `Connect`.  The same holds at every evaluation of the `select` in the
loop, for any number of pending senders. -/
theorem monitorHealth_cancelled_is_terminal (decode : String → Except GoError Event)
    (connects : Nat → ConnectEnv) (sel : Nat → SelectEnv) (w : WebsocketConn)
    (hc : w.Context.cancelled = true ∨ (sel 0).cancel = true ∨
      ((sel 0).errReady = true ∧ (sel 1).cancel = true)) :
    ((monitorHealth decode connects sel w).err = some GoError.canceled ∧
      (monitorHealth decode connects sel w).err
        = (monitorHealth decode connects sel w).conn.Context.Err ∧
      (monitorHealth decode connects sel w).conn.Context
        = { w.Context with cancelled := true } ∧
      ((monitorHealth decode connects sel w).acts = [MonitorAct.goRun] ∨
        (monitorHealth decode connects sel w).acts = [MonitorAct.goRun, MonitorAct.recvErr]) ∧
      (∀ a ∈ (monitorHealth decode connects sel w).acts, a.isConnect = false)) ∧
    (∀ (senders iter : Nat) (a : Int) (w2 : WebsocketConn),
      (w2.Context.cancelled = true ∨ (sel iter).cancel = true) →
      (monitorLoop decode connects sel senders iter a w2).err = some GoError.canceled ∧
      (monitorLoop decode connects sel senders iter a w2).conn.Context
        = { w2.Context with cancelled := true } ∧
      (∀ act ∈ (monitorLoop decode connects sel senders iter a w2).acts,
        act = MonitorAct.recvErr)) := by
  refine ⟨?_, ?_⟩
  · have key : ∃ k, k ≤ 1 ∧
        (monitorLoop decode connects sel 1 0 0 w).err = some GoError.canceled ∧
        (monitorLoop decode connects sel 1 0 0 w).conn.Context
          = { w.Context with cancelled := true } ∧
        (monitorLoop decode connects sel 1 0 0 w).acts = List.replicate k MonitorAct.recvErr := by
      by_cases h0 : w.Context.cancelled = true ∨ (sel 0).cancel = true
      · obtain ⟨h1, _, h3, k, hk, h4⟩ := monitorLoop_cancelled decode connects sel 1 0 0 w h0
        exact ⟨k, hk, h1, h3, h4⟩
      · have hw : w.Context.cancelled = false := by
          cases hcw : w.Context.cancelled
          · rfl
          · exact absurd (Or.inl hcw) h0
        have hs : (sel 0).cancel = false := by
          cases hcs : (sel 0).cancel
          · rfl
          · exact absurd (Or.inr hcs) h0
        have h1 : (sel 0).errReady = true ∧ (sel 1).cancel = true := by
          rcases hc with h | h | h
          · exact absurd (Or.inl h) h0
          · exact absurd (Or.inr h) h0
          · exact h
        obtain ⟨r1, _, r3, k, hk, r4⟩ :=
          monitorLoop_cancelled decode connects sel 0 1 0 w.afterRun (Or.inr h1.2)
        have hk0 : k = 0 := Nat.le_zero.mp hk
        subst hk0
        rw [(afterRun_fields w).1] at r3
        have hstep : monitorLoop decode connects sel 1 0 0 w =
            (monitorLoop decode connects sel 0 1 0 w.afterRun).after [MonitorAct.recvErr] := by
          rw [monitorLoop]
          simp [hs, hw, h1.1, selectCase]
        refine ⟨1, Nat.le_refl 1, ?_, ?_, ?_⟩
        · rw [hstep]; exact r1
        · rw [hstep]; exact r3
        · rw [hstep]; simp [MonitorResult.after, r4]
    obtain ⟨k, hk, h1, h3, h4⟩ := key
    have hErr : (monitorHealth decode connects sel w).conn.Context.Err = some GoError.canceled := by
      simp [monitorHealth, MonitorResult.after, h3, Ctx.Err]
    have hacts : (monitorHealth decode connects sel w).acts
        = MonitorAct.goRun :: List.replicate k MonitorAct.recvErr := by
      simp [monitorHealth, MonitorResult.after, h4]
    refine ⟨by simpa [monitorHealth, MonitorResult.after] using h1, ?_, ?_, ?_, ?_⟩
    · rw [hErr]; simpa [monitorHealth, MonitorResult.after] using h1
    · simpa [monitorHealth, MonitorResult.after] using h3
    · rw [hacts]
      rcases Nat.le_one_iff_eq_zero_or_eq_one.mp hk with rfl | rfl
      · left; rfl
      · right; rfl
    · rw [hacts]
      intro a ha
      rcases List.mem_cons.mp ha with rfl | ha
      · rfl
      · rw [List.eq_of_mem_replicate ha]; rfl
  · intro senders iter a w2 h
    obtain ⟨h1, _, h3, k, _, h4⟩ := monitorLoop_cancelled decode connects sel senders iter a w2 h
    refine ⟨h1, h3, ?_⟩
    rw [h4]
    intro act hact
    exact List.eq_of_mem_replicate hact

/-- C4 (evaluation at the failing input): the session is healthy, so nothing is
ever received from `errCh`, and the context is not cancelled; `monitorHealth`
nevertheless replaces the context, calls `Connect` and returns. -/
theorem monitorHealth_sweeps_while_healthy :
    (monitorHealth sampleDecode (fun _ => failDial) quietSelect (NewWebsocketConn "u" 1)).acts =
      [MonitorAct.goRun, MonitorAct.WithCancel 1,
       MonitorAct.Connect 1 (some (GoError.net "refused")), MonitorAct.logFailure] ∧
    (monitorHealth sampleDecode (fun _ => failDial) quietSelect
      (NewWebsocketConn "u" 1)).conn.Context.handle = 1 ∧
    (monitorHealth sampleDecode (fun _ => failDial) quietSelect (NewWebsocketConn "u" 1)).err =
      some GoError.reconnect := by
  decide

/-- C5 (evaluation at the failing input): with two attempts allowed and `Connect`
succeeding on the first one, `monitorHealth` starts `run`, then makes a second
`Connect` attempt under yet another context, and returns the error
`failed to reconnect`; with one attempt allowed and that attempt succeeding it
returns the same error. -/
theorem monitorHealth_fails_after_successful_reconnect :
    (monitorHealth sampleDecode firstAttemptSucceeds errFirstSelect (NewWebsocketConn "u" 2)).acts =
      [MonitorAct.goRun, MonitorAct.recvErr, MonitorAct.WithCancel 1, MonitorAct.Connect 1 none,
       MonitorAct.goRun, MonitorAct.WithCancel 2,
       MonitorAct.Connect 2 (some (GoError.net "refused")), MonitorAct.logFailure] ∧
    (monitorHealth sampleDecode firstAttemptSucceeds errFirstSelect (NewWebsocketConn "u" 2)).err =
      some GoError.reconnect ∧
    (monitorHealth sampleDecode firstAttemptSucceeds errFirstSelect (NewWebsocketConn "u" 1)).acts =
      [MonitorAct.goRun, MonitorAct.recvErr, MonitorAct.WithCancel 1, MonitorAct.Connect 1 none,
       MonitorAct.goRun] ∧
    (monitorHealth sampleDecode firstAttemptSucceeds errFirstSelect (NewWebsocketConn "u" 1)).err =
      some GoError.reconnect := by
  decide

/-- C8 (evaluation at the failing input): the keepalive loop ends with a write
error on its first probe while the read loop is still waiting for a frame; the
read loop ends later with a timeout, and `run` returns the timeout, not the
keepalive error.  The connection is closed when `run` returns. -/
theorem run_drops_keepalive_error :
    (writePingLoop [brokenPing] (Connect sampleDecode okDial (NewWebsocketConn "u" 1)).2).1 =
      LoopResult.returned (some (GoError.net "broken pipe")) ∧
    (run sampleDecode [brokenPing] [silentRead]
      (Connect sampleDecode okDial (NewWebsocketConn "u" 1)).2).1 =
      LoopResult.returned (some GoError.timeout) ∧
    (run sampleDecode [brokenPing] [silentRead]
      (Connect sampleDecode okDial (NewWebsocketConn "u" 1)).2).2.Conn =
      some { handle := 7, closed := true } := by
  decide

/-! ## Instances at sample inputs -/

/-- Instance of C1: a domain event, a health check and a domain event are received;
the handler log is the two domain events. -/
theorem readLoop_dispatches_in_order_witness :
    (NewWebsocketConn "u" 2).Context.cancelled = false ∧
    received sampleDecode sampleScript =
      [⟨"message.new", "m", "hello"⟩, ⟨EventHealthCheck, "c2", ""⟩, ⟨"message.new", "m", "hello"⟩] ∧
    (readLoop sampleDecode sampleScript (NewWebsocketConn "u" 2)).2.handled =
      (NewWebsocketConn "u" 2).handled ++
        (received sampleDecode sampleScript).filter (fun e => decide (e.type ≠ EventHealthCheck)) :=
  ⟨rfl, by decide,
    readLoop_dispatches_in_order sampleDecode sampleScript (NewWebsocketConn "u" 2) rfl⟩

/-- Instance of C2: handshake with identity `c1`, then a read loop that receives a
health check with identity `c2`. -/
theorem ID_after_connect_and_readLoop_witness :
    (Connect sampleDecode okDial (NewWebsocketConn "u" 2)).1 = none ∧
    (NewWebsocketConn "u" 2).Context.cancelled = false ∧
    ID (readLoop sampleDecode sampleScript (Connect sampleDecode okDial (NewWebsocketConn "u" 2)).2).2 =
      Except.ok ((lastHealthCheckID (received sampleDecode sampleScript)).getD
        (Event.mk EventHealthCheck "c1" "").ConnectionID) :=
  ⟨by decide, rfl,
    ID_after_connect_and_readLoop sampleDecode okDial (NewWebsocketConn "u" 2)
      ⟨EventHealthCheck, "c1", ""⟩ sampleScript (by decide) (by rfl) rfl⟩

/-- Instance of C3 as the code has it: a first message of type `message.new` is
accepted and its `ConnectionID` stored; a refused dial, a silent peer and a
message that does not decode each make `Connect` return the error of that step
and leave the identity as it was. -/
theorem Connect_stores_first_event_witness :
    ((Connect sampleDecode msgDial (NewWebsocketConn "u" 2)).1 = none ∧
      (Connect sampleDecode msgDial (NewWebsocketConn "u" 2)).2.id =
        some (Event.mk "message.new" "m" "hello").ConnectionID) ∧
    ((Connect sampleDecode failDial (NewWebsocketConn "u" 2)).1 = some (GoError.net "refused") ∧
      (Connect sampleDecode failDial (NewWebsocketConn "u" 2)).2.id
        = (NewWebsocketConn "u" 2).id) ∧
    ((Connect sampleDecode silentDial (NewWebsocketConn "u" 2)).1 = some GoError.timeout ∧
      (Connect sampleDecode silentDial (NewWebsocketConn "u" 2)).2.id
        = (NewWebsocketConn "u" 2).id) ∧
    ((Connect sampleDecode garbledDial (NewWebsocketConn "u" 2)).1
        = some (GoError.decode "???") ∧
      (Connect sampleDecode garbledDial (NewWebsocketConn "u" 2)).2.id
        = (NewWebsocketConn "u" 2).id) :=
  have h := Connect_stores_first_event sampleDecode msgDial (NewWebsocketConn "u" 2) 7
    ⟨"message.new", "m", "hello"⟩ rfl (by decide) (by rfl)
  ⟨h.1, h.2.2.1 failDial (GoError.net "refused") rfl,
    h.2.2.2.1 silentDial 7 GoError.timeout rfl (by decide),
    h.2.2.2.2 garbledDial 7 (GoError.decode "???") rfl (by decide) (by rfl)⟩

/-- Instance of C6: three attempts allowed, every dial refused. -/
theorem monitorHealth_exhausts_attempts_witness :
    (0 : Int) ≤ (NewWebsocketConn "u" 3).maxReconnectAttempts ∧
    (monitorHealth sampleDecode (fun _ => failDial) errFirstSelect
      (NewWebsocketConn "u" 3)).err = some GoError.reconnect ∧
    (((monitorHealth sampleDecode (fun _ => failDial) errFirstSelect
      (NewWebsocketConn "u" 3)).acts.countP MonitorAct.isConnect : Nat) : Int) = 3 :=
  have h := monitorHealth_exhausts_attempts sampleDecode (fun _ => failDial) errFirstSelect
    (NewWebsocketConn "u" 3) (by decide)
    (fun _ w2 => by rw [Connect_dial_err sampleDecode failDial w2 (GoError.net "refused") rfl]; simp)
    rfl (fun _ => rfl)
  ⟨by decide, h.1, h.2.2⟩

/-- Instance of C7: on a connected session the failed `run` is received at the first
evaluation of the `select`, the caller cancels before the second one, and every
dial would succeed: the result is the cancellation error, no `Connect` is made,
and the connection has been closed by the `run` that was received from. -/
theorem monitorHealth_cancelled_is_terminal_witness :
    ((cancelAfterError 0).errReady = true ∧ (cancelAfterError 1).cancel = true) ∧
    (monitorHealth sampleDecode (fun _ => okDial) cancelAfterError
      (Connect sampleDecode okDial (NewWebsocketConn "u" 3)).2).err = some GoError.canceled ∧
    (∀ a ∈ (monitorHealth sampleDecode (fun _ => okDial) cancelAfterError
      (Connect sampleDecode okDial (NewWebsocketConn "u" 3)).2).acts, a.isConnect = false) ∧
    (monitorHealth sampleDecode (fun _ => okDial) cancelAfterError
      (Connect sampleDecode okDial (NewWebsocketConn "u" 3)).2).acts
        = [MonitorAct.goRun, MonitorAct.recvErr] ∧
    (monitorHealth sampleDecode (fun _ => okDial) cancelAfterError
      (Connect sampleDecode okDial (NewWebsocketConn "u" 3)).2).conn.Conn
        = some { handle := 7, closed := true } :=
  have h := monitorHealth_cancelled_is_terminal sampleDecode (fun _ => okDial) cancelAfterError
    (Connect sampleDecode okDial (NewWebsocketConn "u" 3)).2 (Or.inr (Or.inr ⟨rfl, rfl⟩))
  ⟨⟨rfl, rfl⟩, h.1.1, h.1.2.2.2.2, by decide, by decide⟩

end StreamChat
